import Mathlib

/-!
Verification of the NEC infrared capture/decode pipeline of this
repository (`scripts/sensors/ir_module/` and
`scripts/projects/IR_WS2812/`).

Shallow embedding: a captured transition list is a `List (Nat × Nat)` of
`(level, duration_us)` pairs, exactly the tuples produced by
`capture_transitions` and consumed by `decode_nec`
(`remote_keys_decoder.py`, duplicated in `ir_detect_keys.py` and
`IR_WS2812.py`) and by `decode_nec_from_transitions`
(`simple_decoder.py`). Durations are nonnegative microsecond counts.
-/

namespace IrModule

/-- One captured segment: the logic level (0 or 1) and how long the pin
held it, in microseconds — the Python tuple `(level, duration_us)`. -/
abbrev Seg := Nat × Nat

/-- The bit-collection loop of `decode_nec` (`remote_keys_decoder.py`
lines 116–128, identical in `simple_decoder.py` lines 139–155): walk the
segments from index 2 in (low-mark, high-space) pairs; on a level
mismatch advance by one segment and retry; otherwise classify the high
duration (`> 1200` µs is bit 1) and advance by two; stop at 32 bits or
when fewer than two segments remain. The first argument is `trans[i:]`,
the second the `bits` accumulator. -/
def necBits : List Seg → List Nat → List Nat
  | (l0, _d0) :: (l1, d1) :: rest, bits =>
    if bits.length < 32 then
      if l0 ≠ 0 ∨ l1 ≠ 1 then
        necBits ((l1, d1) :: rest) bits
      else
        necBits rest (bits ++ [if d1 > 1200 then 1 else 0])
    else bits
  | _, bits => bits

/-- The MSB-first packing loop `val = (val << 1) | b`
(`remote_keys_decoder.py` lines 134–136). -/
def packBits (bits : List Nat) : Nat :=
  bits.foldl (fun val b => (val <<< 1) ||| b) 0

/-- `decode_nec` from `remote_keys_decoder.py` lines 87–137; the same
function appears verbatim in `ir_detect_keys.py` and `IR_WS2812.py`.
The Python checks `len(trans) < 4` before subscripting `trans[0]` and
`trans[1]`; the pattern match realizes those subscripts, which exist
whenever the length gate passes, and the length gate is kept as the
first test. Returns `some code` where the source returns an `int` and
`none` where it returns `None`. -/
def decode_nec : List Seg → Option Nat
  | (low, low_dur) :: (high, high_dur) :: rest =>
    if List.length ((low, low_dur) :: (high, high_dur) :: rest) < 4 then none
    else if low ≠ 0 ∨ ¬(7000 < low_dur ∧ low_dur < 10000) then none
    else if high ≠ 1 ∨ ¬(3500 < high_dur ∧ high_dur < 5000) then none
    else
      let bits := necBits rest []
      if bits.length < 32 then none
      else some (packBits (bits.take 32))
  | _ => none

/-- Decode outcome with the spec's `Invalid` reasons attached to the
distinct `return None` sites of the decoders. The source functions
collapse all three to `None`; the tags name the return sites. -/
inductive DecodeResult where
  | code (v : Nat)
  | tooShort
  | badLeader
  | incomplete
  deriving DecidableEq

/-- Forget the tag: `code v` back to `some v`, every failure to `none`,
recovering the source's return value. -/
def DecodeResult.toOption : DecodeResult → Option Nat
  | .code v => some v
  | _ => none

/-- `decode_nec` with each failure site tagged by its `Invalid` reason:
the length gate is `tooShort`, the two leader tests `badLeader`, the
under-32-bits exit `incomplete`. `decode_nec_result_toOption` shows it
is `decode_nec` up to the tags. -/
def decode_nec_result : List Seg → DecodeResult
  | (low, low_dur) :: (high, high_dur) :: rest =>
    if List.length ((low, low_dur) :: (high, high_dur) :: rest) < 4 then .tooShort
    else if low ≠ 0 ∨ ¬(7000 < low_dur ∧ low_dur < 10000) then .badLeader
    else if high ≠ 1 ∨ ¬(3500 < high_dur ∧ high_dur < 5000) then .badLeader
    else
      let bits := necBits rest []
      if bits.length < 32 then .incomplete
      else .code (packBits (bits.take 32))
  | _ => .tooShort

/-- `decode_nec_from_transitions` from `simple_decoder.py` lines
101–162: the same algorithm, except that the length gate is
`len(trans) < 10` and the leader windows are inclusive
(`dur < 7000 or dur > 10000` rejects, so the boundaries pass). -/
def decode_nec_from_transitions : List Seg → Option Nat
  | (leader_low, leader_low_dur) :: (leader_high, leader_high_dur) :: rest =>
    if List.length ((leader_low, leader_low_dur) ::
        (leader_high, leader_high_dur) :: rest) < 10 then none
    else if leader_low ≠ 0 ∨ leader_low_dur < 7000 ∨ leader_low_dur > 10000 then none
    else if leader_high ≠ 1 ∨ leader_high_dur < 3500 ∨ leader_high_dur > 5000 then none
    else
      let bits := necBits rest []
      if bits.length < 32 then none
      else some (packBits (bits.take 32))
  | _ => none

/-- `decode_nec_from_transitions` with its failure sites tagged like
`decode_nec_result`. -/
def decode_nec_from_transitions_result : List Seg → DecodeResult
  | (leader_low, leader_low_dur) :: (leader_high, leader_high_dur) :: rest =>
    if List.length ((leader_low, leader_low_dur) ::
        (leader_high, leader_high_dur) :: rest) < 10 then .tooShort
    else if leader_low ≠ 0 ∨ leader_low_dur < 7000 ∨ leader_low_dur > 10000 then .badLeader
    else if leader_high ≠ 1 ∨ leader_high_dur < 3500 ∨ leader_high_dur > 5000 then .badLeader
    else
      let bits := necBits rest []
      if bits.length < 32 then .incomplete
      else .code (packBits (bits.take 32))
  | _ => .tooShort

/-- One iteration of the polling loop of `capture_transitions`
(`remote_keys_decoder.py` lines 71–80): the state is
`(last, last_t, transitions)`; a poll observes `(v, now)`; on a level
change the previous level and its duration are appended and the segment
start resets. -/
def captureStep (st : Nat × Nat × List Seg) (p : Nat × Nat) :
    Nat × Nat × List Seg :=
  let (last, last_t, transitions) := st
  let (v, now) := p
  if v ≠ last then (v, now, transitions ++ [(last, now - last_t)])
  else (last, last_t, transitions)

/-- `capture_transitions` (`remote_keys_decoder.py` lines 46–85) after
the falling edge has been seen: `polls` are the `(value, time)` reads
made while the deadline had not passed, `t0` the burst start time, and
`tEnd` the time of the final read after the window elapsed. The final
in-progress segment is appended unconditionally before returning. -/
def capture_transitions (polls : List (Nat × Nat)) (t0 tEnd : Nat) :
    List Seg :=
  let st := polls.foldl captureStep (0, t0, [])
  st.2.2 ++ [(st.1, tEnd - st.2.1)]

/-- One iteration of the learning loop body (`remote_keys_decoder.py`
lines 147–156). `learned` is the dict as an insertion-ordered
association list, `code` the decode result. `if not code: continue`
skips both `None` and the integer `0` (falsy in Python); a duplicate
value is skipped; otherwise the code is bound to
`EXPECTED_BUTTONS[len(learned)]`. -/
def learnStep (expected : List String) (learned : List (String × Nat))
    (code : Option Nat) : List (String × Nat) :=
  match code with
  | none => learned
  | some c =>
    if c = 0 then learned
    else if (learned.map Prod.snd).contains c then learned
    else learned ++ [(expected.getD learned.length "", c)]

/-- The learning loop: process successive decode outcomes while
`len(learned) < len(EXPECTED_BUTTONS)`
(`remote_keys_decoder.py` line 147). -/
def learnRun (expected : List String) :
    List (Option Nat) → List (String × Nat) → List (String × Nat)
  | [], learned => learned
  | c :: cs, learned =>
    if learned.length < expected.length then
      learnRun expected cs (learnStep expected learned c)
    else learned

/-- What one iteration of a detect/display main loop does with a decode
result: skip it, report a button, report a repeat, or report an unknown
code. -/
inductive KeyEvent where
  | skipped
  | button (label : String)
  | repeatFrame
  | unknown (code : Nat)
  deriving DecidableEq

/-- One iteration of the `ir_detect_keys.py` main loop (lines 129–142):
`if not code: continue` skips `None` and `0`; a keymap hit reports the
button; `0xFFFFFFFF` prints the repeat indicator; anything else is an
unknown code. -/
def detectStep (keymap : List (Nat × String)) (code : Option Nat) :
    KeyEvent :=
  match code with
  | none => .skipped
  | some c =>
    if c = 0 then .skipped
    else
      match keymap.lookup c with
      | some lbl => .button lbl
      | none => if c = 0xFFFFFFFF then .repeatFrame else .unknown c

/-- One iteration of the `IR_WS2812.py` main loop (lines 593–611); its
key handling duplicates `ir_detect_keys.py` (the button branch also
drives the LED matrix, which is outside the decoded-event model). -/
def displayStep (keymap : List (Nat × String)) (code : Option Nat) :
    KeyEvent :=
  match code with
  | none => .skipped
  | some c =>
    if c = 0 then .skipped
    else
      match keymap.lookup c with
      | some lbl => .button lbl
      | none => if c = 0xFFFFFFFF then .repeatFrame else .unknown c

/-- The learned keymap of `ir_detect_keys.py` lines 28–46. -/
def keymap : List (Nat × String) :=
  [(0xFF9867, "0"), (0xFFA25D, "1"), (0xFF629D, "2"), (0xFFE21D, "3"),
   (0xFF22DD, "4"), (0xFF02FD, "5"), (0xFFC23D, "6"), (0xFFE01F, "7"),
   (0xFFA857, "8"), (0xFF906F, "9"), (0xFF6897, "*"), (0xFFB04F, "#"),
   (0xFF18E7, "UP"), (0xFF4AB5, "DOWN"), (0xFF10EF, "LEFT"),
   (0xFF5AA5, "RIGHT"), (0xFF38C7, "OK")]

/-- The 32 bits of `v`, most significant first — the bit order in which
`decode_nec` collects and packs data bits. -/
def natBits32 (v : Nat) : List Nat :=
  (List.range 32).map fun k => v / 2 ^ (31 - k) % 2

/-- Nominal NEC encoding of one data bit: a ~560 µs low mark followed by
a high space of ~560 µs (bit 0) or ~1690 µs (bit 1). Used to build the
synthetic bursts of the testable properties. -/
def necEncodeBit (b : Nat) : List Seg :=
  [(0, 560), (1, if b = 1 then 1690 else 560)]

/-- The 64 data segments encoding the 32 bits of `v` at nominal
durations, MSB first. -/
def necEncode (v : Nat) : List Seg :=
  ((natBits32 v).map necEncodeBit).flatten

/-- Tag erasure: the tagged decoder is `decode_nec` up to the reasons. -/
theorem decode_nec_result_toOption (trans : List Seg) :
    (decode_nec_result trans).toOption = decode_nec trans := by
  match trans with
  | [] => rfl
  | [_] => rfl
  | (low, low_dur) :: (high, high_dur) :: rest =>
    simp only [decode_nec_result, decode_nec]
    split
    · rfl
    · split
      · rfl
      · split
        · rfl
        · split
          · rfl
          · rfl

/-- Tag erasure for the `simple_decoder.py` decoder. -/
theorem decode_nec_from_transitions_result_toOption (trans : List Seg) :
    (decode_nec_from_transitions_result trans).toOption =
      decode_nec_from_transitions trans := by
  match trans with
  | [] => rfl
  | [_] => rfl
  | (a, b) :: (c, d) :: rest =>
    simp only [decode_nec_from_transitions_result, decode_nec_from_transitions]
    split
    · rfl
    · split
      · rfl
      · split
        · rfl
        · split
          · rfl
          · rfl


/-- Claim C1: a burst made of a valid NEC leader followed by the 64
nominal data segments encoding the 32 bits of 0xFF9867 decodes to
exactly that code, the bits packed MSB-first. -/
theorem decode_roundtrip_FF9867 (ld hd : Nat)
    (h1 : 7000 < ld) (h2 : ld < 10000) (h3 : 3500 < hd) (h4 : hd < 5000) :
    decode_nec ((0, ld) :: (1, hd) :: necEncode 0xFF9867) = some 0xFF9867 := by
  have h64 : (necEncode 0xFF9867).length = 64 := by decide
  have hlen : ¬ List.length ((0, ld) :: (1, hd) :: necEncode 0xFF9867) < 4 := by
    simp [h64]
  simp only [decode_nec]
  rw [if_neg hlen, if_neg (by simp [h1, h2]), if_neg (by simp [h3, h4])]
  decide

/-- Witness for C1 at the nominal leader durations (9000, 4500). -/
theorem decode_roundtrip_FF9867_witness :
    decode_nec ((0, 9000) :: (1, 4500) :: necEncode 0xFF9867) = some 0xFF9867 :=
  decode_roundtrip_FF9867 9000 4500 (by decide) (by decide) (by decide) (by decide)

/-- Claim C2 counterexample: a burst whose 32 decoded bits are all 1 is
returned as the code value 0xFFFFFFFF — `decode_nec` has no Repeat
outcome — and the learning loop, a caller of `decode_nec`, accepts that
value as a button binding instead of treating it as a repeat indicator. -/
theorem allones_returned_as_code_and_learned :
    decode_nec_result ((0, 9000) :: (1, 4500) :: necEncode 0xFFFFFFFF) =
      DecodeResult.code 0xFFFFFFFF ∧
    learnStep ["0", "1", "2"] [] (some 0xFFFFFFFF) = [("0", 0xFFFFFFFF)] :=
  ⟨by decide, by decide⟩

/-- Claim C2 amended: an all-ones burst decodes to the raw packed value
0xFFFFFFFF with no distinguished Repeat result; the detect and display
loops classify that value as a repeat indicator whenever it is not a
keymap key, while the learning loop treats it as a candidate button
code and binds it. -/
theorem repeat_sentinel_handling (ld hd : Nat) (km : List (Nat × String))
    (h1 : 7000 < ld) (h2 : ld < 10000) (h3 : 3500 < hd) (h4 : hd < 5000)
    (hkm : km.lookup 0xFFFFFFFF = none) :
    decode_nec ((0, ld) :: (1, hd) :: necEncode 0xFFFFFFFF) = some 0xFFFFFFFF ∧
    detectStep km (some 0xFFFFFFFF) = KeyEvent.repeatFrame ∧
    displayStep km (some 0xFFFFFFFF) = KeyEvent.repeatFrame ∧
    learnStep ["0"] [] (some 0xFFFFFFFF) = [("0", 0xFFFFFFFF)] := by
  refine ⟨?_, ?_, ?_, by decide⟩
  · have h64 : (necEncode 0xFFFFFFFF).length = 64 := by decide
    have hlen : ¬ List.length ((0, ld) :: (1, hd) :: necEncode 0xFFFFFFFF) < 4 := by
      simp [h64]
    simp only [decode_nec]
    rw [if_neg hlen, if_neg (by simp [h1, h2]), if_neg (by simp [h3, h4])]
    decide
  · simp [detectStep, hkm]
  · simp [displayStep, hkm]

/-- Witness for the amended C2, at the nominal leader and the shipped
keymap of `ir_detect_keys.py`, which has no 0xFFFFFFFF key. -/
theorem repeat_sentinel_handling_witness :
    decode_nec ((0, 9000) :: (1, 4500) :: necEncode 0xFFFFFFFF) = some 0xFFFFFFFF ∧
    detectStep keymap (some 0xFFFFFFFF) = KeyEvent.repeatFrame ∧
    displayStep keymap (some 0xFFFFFFFF) = KeyEvent.repeatFrame ∧
    learnStep ["0"] [] (some 0xFFFFFFFF) = [("0", 0xFFFFFFFF)] :=
  repeat_sentinel_handling 9000 4500 keymap (by decide) (by decide) (by decide)
    (by decide) (by decide)

/-- Claim C3: with 3 expected buttons and decode outcomes A, A, B, C —
distinct and nonzero — the session accepts A for button 1, leaves the
keymap and cursor unchanged on the duplicate A, then accepts B and C;
the run terminates complete with exactly 3 pairwise-distinct bindings. -/
theorem learning_session_AABC (n1 n2 n3 : String) (A B C : Nat)
    (hA : A ≠ 0) (hB : B ≠ 0) (hC : C ≠ 0)
    (hAB : A ≠ B) (hAC : A ≠ C) (hBC : B ≠ C) :
    learnStep [n1, n2, n3] [] (some A) = [(n1, A)] ∧
    learnStep [n1, n2, n3] [(n1, A)] (some A) = [(n1, A)] ∧
    learnStep [n1, n2, n3] [(n1, A)] (some B) = [(n1, A), (n2, B)] ∧
    learnStep [n1, n2, n3] [(n1, A), (n2, B)] (some C) =
      [(n1, A), (n2, B), (n3, C)] ∧
    learnRun [n1, n2, n3] [some A, some A, some B, some C] [] =
      [(n1, A), (n2, B), (n3, C)] ∧
    ¬ ([(n1, A), (n2, B), (n3, C)] : List (String × Nat)).length <
        ([n1, n2, n3] : List String).length ∧
    (([(n1, A), (n2, B), (n3, C)] : List (String × Nat)).map Prod.snd).Pairwise
      (· ≠ ·) := by
  have s1 : learnStep [n1, n2, n3] [] (some A) = [(n1, A)] := by
    simp [learnStep, hA]
  have s2 : learnStep [n1, n2, n3] [(n1, A)] (some A) = [(n1, A)] := by
    simp [learnStep, hA]
  have s3 : learnStep [n1, n2, n3] [(n1, A)] (some B) = [(n1, A), (n2, B)] := by
    simp [learnStep, hB, Ne.symm hAB]
  have s4 : learnStep [n1, n2, n3] [(n1, A), (n2, B)] (some C) =
      [(n1, A), (n2, B), (n3, C)] := by
    simp [learnStep, hC, Ne.symm hAC, Ne.symm hBC]
  refine ⟨s1, s2, s3, s4, ?_, by simp, ?_⟩
  · simp [learnRun, s1, s2, s3, s4]
  · simp [hAB, hAC, hBC]

/-- Witness for C3 with buttons "x", "y", "z" and codes 10, 20, 30. -/
theorem learning_session_AABC_witness :
    learnStep ["x", "y", "z"] [] (some 10) = [("x", 10)] ∧
    learnStep ["x", "y", "z"] [("x", 10)] (some 10) = [("x", 10)] ∧
    learnStep ["x", "y", "z"] [("x", 10)] (some 20) = [("x", 10), ("y", 20)] ∧
    learnStep ["x", "y", "z"] [("x", 10), ("y", 20)] (some 30) =
      [("x", 10), ("y", 20), ("z", 30)] ∧
    learnRun ["x", "y", "z"] [some 10, some 10, some 20, some 30] [] =
      [("x", 10), ("y", 20), ("z", 30)] ∧
    ¬ ([("x", 10), ("y", 20), ("z", 30)] : List (String × Nat)).length <
        (["x", "y", "z"] : List String).length ∧
    (([("x", 10), ("y", 20), ("z", 30)] : List (String × Nat)).map Prod.snd).Pairwise
      (· ≠ ·) :=
  learning_session_AABC "x" "y" "z" 10 20 30 (by decide) (by decide) (by decide)
    (by decide) (by decide) (by decide)

/-- Claim C4 counterexample: a leader low duration of exactly 7000 µs
lies in the claimed inclusive interval [7000, 10000], yet `decode_nec`
rejects that burst as a bad leader — its tests are strict inequalities. -/
theorem leader_boundary_7000_rejected :
    decode_nec_result ((0, 7000) :: (1, 4500) :: necEncode 0xFF9867) =
      DecodeResult.badLeader := by decide

/-- Claim C4 amended: `decode_nec` passes the leader exactly on the open
intervals (7000, 10000) and (3500, 5000) — the boundary durations are
rejected — while `decode_nec_from_transitions` passes exactly the
closed intervals [7000, 10000] and [3500, 5000]. In both, first
segments (low, 8900), (high, 4400) pass and a 6000 µs low fails. -/
theorem leader_validation_characterization (ld hd : Nat) (rest : List Seg)
    (hlen : 8 ≤ rest.length) :
    (decode_nec_result ((0, ld) :: (1, hd) :: rest) ≠ DecodeResult.badLeader ↔
      7000 < ld ∧ ld < 10000 ∧ 3500 < hd ∧ hd < 5000) ∧
    (decode_nec_from_transitions_result ((0, ld) :: (1, hd) :: rest) ≠
        DecodeResult.badLeader ↔
      7000 ≤ ld ∧ ld ≤ 10000 ∧ 3500 ≤ hd ∧ hd ≤ 5000) := by
  have h4 : ¬ List.length ((0, ld) :: (1, hd) :: rest) < 4 := by
    simp only [List.length_cons]; omega
  have h10 : ¬ List.length ((0, ld) :: (1, hd) :: rest) < 10 := by
    simp only [List.length_cons]; omega
  constructor
  · simp only [decode_nec_result]
    rw [if_neg h4]
    split_ifs with hc1 hc2 hc3
    · simp only [ne_eq, not_true_eq_false, false_iff]
      simp at hc1
      omega
    · simp only [ne_eq, not_true_eq_false, false_iff]
      simp at hc2
      omega
    · refine iff_of_true (by simp) ?_
      simp at hc1 hc2
      omega
    · refine iff_of_true (by simp) ?_
      simp at hc1 hc2
      omega
  · simp only [decode_nec_from_transitions_result]
    rw [if_neg h10]
    split_ifs with hc1 hc2 hc3
    · simp only [ne_eq, not_true_eq_false, false_iff]
      simp at hc1
      omega
    · simp only [ne_eq, not_true_eq_false, false_iff]
      simp at hc2
      omega
    · refine iff_of_true (by simp) ?_
      simp at hc1 hc2
      omega
    · refine iff_of_true (by simp) ?_
      simp at hc1 hc2
      omega

/-- Witness for the amended C4 at (low, 8900), (high, 4400) before 64
data segments: both decoders pass leader validation. -/
theorem leader_validation_characterization_witness :
    (decode_nec_result ((0, 8900) :: (1, 4400) :: necEncode 0xFF9867) ≠
        DecodeResult.badLeader ↔
      7000 < 8900 ∧ 8900 < 10000 ∧ 3500 < 4400 ∧ 4400 < 5000) ∧
    (decode_nec_from_transitions_result ((0, 8900) :: (1, 4400) :: necEncode 0xFF9867) ≠
        DecodeResult.badLeader ↔
      7000 ≤ 8900 ∧ 8900 ≤ 10000 ∧ 3500 ≤ 4400 ∧ 4400 ≤ 5000) :=
  leader_validation_characterization 8900 4400 (necEncode 0xFF9867) (by decide)

/-- Claim C5: in the pair walk a valid (low, high) pair contributes bit
1 exactly when the high-space duration exceeds 1200 µs and bit 0 when
it is at most 1200 µs; in particular exactly 1200 µs gives bit 0. -/
theorem bit_threshold (m d : Nat) (rest : List Seg) (acc : List Nat)
    (hacc : acc.length < 32) :
    (d > 1200 → necBits ((0, m) :: (1, d) :: rest) acc = necBits rest (acc ++ [1])) ∧
    (d ≤ 1200 → necBits ((0, m) :: (1, d) :: rest) acc = necBits rest (acc ++ [0])) := by
  constructor
  · intro hd
    rw [necBits, if_pos hacc, if_neg (by simp), if_pos hd]
  · intro hd
    rw [necBits, if_pos hacc, if_neg (by simp), if_neg (by omega)]

/-- Witness for C5: the boundary space of exactly 1200 µs decodes as
bit 0, and a nominal 1690 µs space as bit 1. -/
theorem bit_threshold_witness :
    necBits ((0, 560) :: (1, 1200) :: []) [] = necBits [] ([] ++ [0]) ∧
    necBits ((0, 560) :: (1, 1690) :: []) [] = necBits [] ([] ++ [1]) :=
  ⟨(bit_threshold 560 1200 [] [] (by decide)).2 (by decide),
   (bit_threshold 560 1690 [] [] (by decide)).1 (by decide)⟩

/-- Claim C6: when the pair under the walk is not (low, high) the index
advances by exactly one segment and the walk retries; concretely,
splicing one spurious (high, 50) segment between the 10th and 11th bit
pairs of an otherwise decodable burst still yields the full code. -/
theorem realign_skips_one (l0 d0 l1 d1 : Nat) (rest : List Seg)
    (acc : List Nat) (hacc : acc.length < 32) (hmis : l0 ≠ 0 ∨ l1 ≠ 1) :
    necBits ((l0, d0) :: (l1, d1) :: rest) acc = necBits ((l1, d1) :: rest) acc ∧
    decode_nec ((0, 9000) :: (1, 4500) ::
        ((necEncode 0xFF9867).take 20 ++ (1, 50) :: (necEncode 0xFF9867).drop 20)) =
      some 0xFF9867 := by
  constructor
  · rw [necBits, if_pos hacc, if_pos hmis]
  · decide

/-- Witness for C6: a spurious (high, 50) followed by a low mark is
skipped one segment at a time. -/
theorem realign_skips_one_witness :
    necBits ((1, 50) :: (0, 560) :: []) [] = necBits ((0, 560) :: []) [] ∧
    decode_nec ((0, 9000) :: (1, 4500) ::
        ((necEncode 0xFF9867).take 20 ++ (1, 50) :: (necEncode 0xFF9867).drop 20)) =
      some 0xFF9867 :=
  realign_skips_one 1 50 0 560 [] [] (by decide) (by decide)

/-- Claim C7 counterexample: a 4-segment burst — which per the claim
should be past the too-short rejection — still triggers the length
rejection of `decode_nec_from_transitions`, whose gate is
`len(trans) < 10`. -/
theorem simple_decoder_four_segments_too_short :
    decode_nec_from_transitions_result [(0, 9000), (1, 4500), (0, 560), (1, 560)] =
      DecodeResult.tooShort := by decide

/-- Claim C7 amended: the too-short rejection of `decode_nec` fires
exactly on bursts with fewer than 4 segments, before any leader or bit
processing; the corresponding rejection of
`decode_nec_from_transitions` fires exactly below 10 segments. -/
theorem too_short_characterization (trans : List Seg) :
    (decode_nec_result trans = DecodeResult.tooShort ↔ trans.length < 4) ∧
    (decode_nec_from_transitions_result trans = DecodeResult.tooShort ↔
      trans.length < 10) := by
  match trans with
  | [] => exact ⟨by simp [decode_nec_result], by simp [decode_nec_from_transitions_result]⟩
  | [(a, b)] =>
    exact ⟨by simp [decode_nec_result], by simp [decode_nec_from_transitions_result]⟩
  | (a, b) :: (c, d) :: rest =>
    constructor
    · simp only [decode_nec_result]
      constructor
      · intro h
        by_contra hlen
        rw [if_neg hlen] at h
        split_ifs at h
      · intro h
        rw [if_pos h]
    · simp only [decode_nec_from_transitions_result]
      constructor
      · intro h
        by_contra hlen
        rw [if_neg hlen] at h
        split_ifs at h
      · intro h
        rw [if_pos h]

/-- Claim C8 counterexample: a capture+decode cycle whose burst decodes
to the repeat sentinel 0xFFFFFFFF is not ignored by the learning loop —
the keymap grows by one binding. -/
theorem repeat_cycle_not_ignored_in_learning :
    decode_nec ((0, 8000) :: (1, 4000) :: necEncode 0xFFFFFFFF) = some 0xFFFFFFFF ∧
    learnStep ["UP", "DOWN"] [] (some 0xFFFFFFFF) = [("UP", 0xFFFFFFFF)] ∧
    [("UP", 0xFFFFFFFF)] ≠ ([] : List (String × Nat)) :=
  ⟨by decide, by decide, by decide⟩

/-- Claim C8 amended: during learning, cycles whose decode outcome is
Invalid (`None`) or the code 0 leave the keymap — and hence the cursor
and next expected button — unchanged; a decode of the repeat sentinel
0xFFFFFFFF is not ignored but treated as an ordinary candidate code. -/
theorem learning_ignores_invalid (expected : List String)
    (st : List (String × Nat)) :
    learnStep expected st none = st ∧ learnStep expected st (some 0) = st :=
  ⟨rfl, rfl⟩

/-- Claim C9: `capture_transitions` unconditionally appends the final
in-progress segment with its partial duration after the capture window,
so the returned burst is non-empty no matter how many (possibly zero)
level changes the polls observed. -/
theorem capture_transitions_nonempty (polls : List (Nat × Nat)) (t0 tEnd : Nat) :
    capture_transitions polls t0 tEnd ≠ [] ∧
    (capture_transitions polls t0 tEnd).getLast? =
      some ((polls.foldl captureStep (0, t0, [])).1,
        tEnd - (polls.foldl captureStep (0, t0, [])).2.1) := by
  unfold capture_transitions
  exact ⟨by simp, by simp⟩

/-- Claim C10: a successful decode of the code 0 is discarded by all
three consumer loops exactly like a failed decode — `if not code`
treats the integer 0 as falsy — so no button event is emitted, no
resolution occurs, and no learning binding is made. -/
theorem zero_code_discarded (km : List (Nat × String))
    (expected : List String) (st : List (String × Nat)) :
    detectStep km (some 0) = detectStep km none ∧
    detectStep km (some 0) = KeyEvent.skipped ∧
    displayStep km (some 0) = displayStep km none ∧
    displayStep km (some 0) = KeyEvent.skipped ∧
    learnStep expected st (some 0) = learnStep expected st none ∧
    learnStep expected st (some 0) = st :=
  ⟨rfl, rfl, rfl, rfl, rfl, rfl⟩

end IrModule
